import Mathlib

/-!
Verification of the Technical Analysis & Prediction-Backtesting Engine of the
invest-platform repository.

The TypeScript sources are shallowly embedded here:
* JavaScript numbers are modelled as rationals (`ℚ`); the `NaN` sentinel used
  by the indicator library is modelled as `Option ℚ` with `none` for `NaN`
  (the source never performs arithmetic on a `NaN` entry: every read of an
  indicator array is guarded by an `isNaN` check or an index bound, so the
  `Option` embedding is exact).
* Dates are modelled as integers (one unit = one calendar day); the source's
  `[targetDate, targetDate + 1 day)` window over daily price rows therefore
  becomes equality of dates.
* Database rows (`Prediction`, `StockPrice`, `TechnicalIndicator`) become
  Lean structures; a Prisma `findMany` with a `where` clause becomes a
  `List.filter`, and an `update` keyed by the primary key becomes a pointwise
  `List.map` (ids are unique).
-/

namespace Invest

/-- `x.toFixed(2)` followed by `parseFloat`: round to two decimals
(ECMAScript `toFixed` picks the larger integer on ties, i.e. half-up). -/
def round2 (q : ℚ) : ℚ := (⌊q * 100 + 1/2⌋ : ℚ) / 100

/-- `x.toFixed(4)` followed by `parseFloat`: round to four decimals. -/
def round4 (q : ℚ) : ℚ := (⌊q * 10000 + 1/2⌋ : ℚ) / 10000

/-! ## Indicator Library (`src/backend/src/utils/technicalIndicators.ts`) -/

/-- One OHLCV row (`PriceData` in the source). -/
structure PriceData where
  date : ℤ
  open' : ℚ
  high : ℚ
  low : ℚ
  close : ℚ
  volume : ℚ
  deriving Repr, DecidableEq, Inhabited

/-- `TechnicalIndicators.calculateSMA(prices, period)`: entry `i` is `NaN`
for `i < period - 1`, otherwise the arithmetic mean of the trailing
`period`-element window `prices.slice(i - period + 1, i + 1)`. -/
def calculateSMA (prices : List ℚ) (period : ℕ) : List (Option ℚ) :=
  (List.range prices.length).map fun i =>
    if i < period - 1 then none
    else some (((prices.drop (i + 1 - period)).take period).sum / (period : ℚ))

/-- Seed-then-recurrence values of `TechnicalIndicators.calculateEMA`:
offset `0` is the seed (SMA of the first `period` prices), offset `k + 1`
applies `(price - prev) * 2/(period+1) + prev` at array index
`period - 1 + (k + 1)`. -/
def emaFrom (prices : List ℚ) (period : ℕ) : ℕ → ℚ
  | 0 => (prices.take period).sum / (period : ℚ)
  | k + 1 =>
      let prev := emaFrom prices period k
      (prices.getD (period - 1 + (k + 1)) 0 - prev) * (2 / ((period : ℚ) + 1)) + prev

/-- `TechnicalIndicators.calculateEMA(prices, period)`: `NaN` before index
`period - 1`, the seed SMA at `period - 1`, then the recurrence. -/
def calculateEMA (prices : List ℚ) (period : ℕ) : List (Option ℚ) :=
  (List.range prices.length).map fun i =>
    if i < period - 1 then none
    else some (emaFrom prices period (i - (period - 1)))

/-- Gain at index `j ≥ 1` of `calculateRSI`: `change > 0 ? change : 0`. -/
def gainAt (prices : List ℚ) (j : ℕ) : ℚ :=
  max (prices.getD j 0 - prices.getD (j - 1) 0) 0

/-- Loss at index `j ≥ 1` of `calculateRSI`: `change < 0 ? -change : 0`. -/
def lossAt (prices : List ℚ) (j : ℕ) : ℚ :=
  max (prices.getD (j - 1) 0 - prices.getD j 0) 0

/-- Wilder smoothing step of `calculateRSI`: `(avg*(period-1) + new)/period`. -/
def wilderStep (period : ℕ) (avg x : ℚ) : ℚ :=
  (avg * ((period : ℚ) - 1) + x) / (period : ℚ)

/-- The mutable `avgGain`/`avgLoss` pair of `calculateRSI` at array index
`period + k`: offset `0` is the simple mean of `gains.slice(1, period+1)` /
`losses.slice(1, period+1)`, each later offset applies Wilder smoothing with
the gain/loss at index `period + k + 1`. -/
def rsiAvgs (prices : List ℚ) (period : ℕ) : ℕ → ℚ × ℚ
  | 0 =>
      (((List.range period).map fun j => gainAt prices (j + 1)).sum / (period : ℚ),
       ((List.range period).map fun j => lossAt prices (j + 1)).sum / (period : ℚ))
  | k + 1 =>
      let prev := rsiAvgs prices period k
      (wilderStep period prev.1 (gainAt prices (period + (k + 1))),
       wilderStep period prev.2 (lossAt prices (period + (k + 1))))

/-- The RSI value from an average gain/loss pair: `100` when only gains,
`50` when flat, else `100 - 100/(1 + avgGain/avgLoss)`. -/
def rsiOf (avgGain avgLoss : ℚ) : ℚ :=
  if avgLoss = 0 then (if avgGain = 0 then 50 else 100)
  else 100 - 100 / (1 + avgGain / avgLoss)

/-- `TechnicalIndicators.calculateRSI(prices, period)`: `NaN` for indices
`< period`, then `rsiOf` of the running Wilder averages. -/
def calculateRSI (prices : List ℚ) (period : ℕ) : List (Option ℚ) :=
  (List.range prices.length).map fun i =>
    if i < period then none
    else some (rsiOf (rsiAvgs prices period (i - period)).1
      (rsiAvgs prices period (i - period)).2)

/-- Pointwise `isNaN(a) || isNaN(b) ? NaN : a - b`, used by `calculateMACD`
for both the MACD line and the histogram. -/
def optSub : Option ℚ → Option ℚ → Option ℚ
  | some x, some y => some (x - y)
  | _, _ => none

/-- `new Array(target - l.length).fill(NaN).concat(l)`: left-pad a shorter
array with `NaN` back to the original length. -/
def padNone (target : ℕ) (l : List (Option ℚ)) : List (Option ℚ) :=
  List.replicate (target - l.length) (none : Option ℚ) ++ l

/-- `TechnicalIndicators.calculateMACD(prices, fast, slow, signalPeriod)`. -/
def calculateMACD (prices : List ℚ) (fastPeriod slowPeriod signalPeriod : ℕ) :
    List (Option ℚ) × List (Option ℚ) × List (Option ℚ) :=
  let emaF := calculateEMA prices fastPeriod
  let emaS := calculateEMA prices slowPeriod
  let macd := List.zipWith optSub emaF emaS
  let signal := calculateEMA (macd.filterMap id) signalPeriod
  let paddedSignal := padNone macd.length signal
  let histogram := List.zipWith optSub macd paddedSignal
  (macd, paddedSignal, histogram)

/-- `Math.max(...l)` over a nonempty slice. -/
def listMax (l : List ℚ) : ℚ := l.foldl max (l.headD 0)

/-- `Math.min(...l)` over a nonempty slice. -/
def listMin (l : List ℚ) : ℚ := l.foldl min (l.headD 0)

/-- `TechnicalIndicators.calculateBollingerBands(prices, period, stdDev)`;
`sq` abstracts JavaScript's `Math.sqrt`. -/
def calculateBollingerBands (sq : ℚ → ℚ) (prices : List ℚ) (period : ℕ)
    (stdDev : ℚ) : List (Option ℚ) × List (Option ℚ) × List (Option ℚ) :=
  let middle := calculateSMA prices period
  let upper := (List.range prices.length).map fun i =>
    if i < period - 1 then none
    else
      let slice := (prices.drop (i + 1 - period)).take period
      let mean := (middle.getD i none).getD 0
      let variance := (slice.map fun price => (price - mean) ^ 2).sum / (period : ℚ)
      some (mean + stdDev * sq variance)
  let lower := (List.range prices.length).map fun i =>
    if i < period - 1 then none
    else
      let slice := (prices.drop (i + 1 - period)).take period
      let mean := (middle.getD i none).getD 0
      let variance := (slice.map fun price => (price - mean) ^ 2).sum / (period : ℚ)
      some (mean - stdDev * sq variance)
  (upper, middle, lower)

/-- `TechnicalIndicators.calculateStochastic(highs, lows, closes, period, smoothK)`. -/
def calculateStochastic (highs lows closes : List ℚ) (period smoothK : ℕ) :
    List (Option ℚ) × List (Option ℚ) :=
  let k := (List.range closes.length).map fun i =>
    if i < period - 1 then none
    else
      let highsSlice := (highs.drop (i + 1 - period)).take period
      let lowsSlice := (lows.drop (i + 1 - period)).take period
      let highestHigh := listMax highsSlice
      let lowestLow := listMin lowsSlice
      some (if lowestLow = highestHigh then 50
        else (closes.getD i 0 - lowestLow) / (highestHigh - lowestLow) * 100)
  let smoothedK := calculateSMA (k.filterMap id) smoothK
  let paddedK := padNone k.length smoothedK
  let d := calculateSMA (paddedK.filterMap id) 3
  let paddedD := padNone paddedK.length d
  (paddedK, paddedD)

/-- The per-step true ranges of `calculateATR`/`calculateADX`: index `0` uses
`high - low` only, later indices `max(high-low, |high-prevClose|, |low-prevClose|)`. -/
def trueRanges (highs lows closes : List ℚ) : List ℚ :=
  (List.range closes.length).map fun i =>
    if i = 0 then highs.getD i 0 - lows.getD i 0
    else
      max (max (highs.getD i 0 - lows.getD i 0) |highs.getD i 0 - closes.getD (i - 1) 0|)
        |lows.getD i 0 - closes.getD (i - 1) 0|

/-- `TechnicalIndicators.calculateATR(highs, lows, closes, period)`:
EMA of the true ranges. -/
def calculateATR (highs lows closes : List ℚ) (period : ℕ) : List (Option ℚ) :=
  calculateEMA (trueRanges highs lows closes) period

/-- `+DM` entries of `calculateADX`. -/
def plusDMList (highs lows : List ℚ) (n : ℕ) : List ℚ :=
  (List.range n).map fun i =>
    if i = 0 then 0
    else
      let highDiff := highs.getD i 0 - highs.getD (i - 1) 0
      let lowDiff := lows.getD (i - 1) 0 - lows.getD i 0
      if highDiff > lowDiff ∧ highDiff > 0 then highDiff else 0

/-- `-DM` entries of `calculateADX`. -/
def minusDMList (highs lows : List ℚ) (n : ℕ) : List ℚ :=
  (List.range n).map fun i =>
    if i = 0 then 0
    else
      let highDiff := highs.getD i 0 - highs.getD (i - 1) 0
      let lowDiff := lows.getD (i - 1) 0 - lows.getD i 0
      if lowDiff > highDiff ∧ lowDiff > 0 then lowDiff else 0

/-- `TechnicalIndicators.calculateADX(highs, lows, closes, period)`:
`NaN` until `2 * period` observations exist, then the (unsmoothed) DX built
from `period`-window averages of `+DM`, `-DM` and true range. -/
def calculateADX (highs lows closes : List ℚ) (period : ℕ) : List (Option ℚ) :=
  let plusDM := plusDMList highs lows closes.length
  let minusDM := minusDMList highs lows closes.length
  let tr := trueRanges highs lows closes
  (List.range closes.length).map fun i =>
    if i = 0 then none
    else if i < period * 2 then none
    else
      let avgPlusDM := ((plusDM.drop (i + 1 - period)).take period).sum / (period : ℚ)
      let avgMinusDM := ((minusDM.drop (i + 1 - period)).take period).sum / (period : ℚ)
      let avgTR := ((tr.drop (i + 1 - period)).take period).sum / (period : ℚ)
      let plusDI := if avgTR = 0 then 0 else avgPlusDM / avgTR * 100
      let minusDI := if avgTR = 0 then 0 else avgMinusDM / avgTR * 100
      some (if plusDI + minusDI = 0 then 0
        else |plusDI - minusDI| / (plusDI + minusDI) * 100)

/-- One row of `calculateAllIndicators`' output (`IndicatorResult`):
every field is optional, `none` standing for the source's `undefined`. -/
structure IndicatorResult where
  date : ℤ
  rsi14 : Option ℚ := none
  macd : Option ℚ := none
  macdSignal : Option ℚ := none
  macdHistogram : Option ℚ := none
  sma20 : Option ℚ := none
  sma50 : Option ℚ := none
  sma200 : Option ℚ := none
  ema12 : Option ℚ := none
  ema26 : Option ℚ := none
  bollingerUpper : Option ℚ := none
  bollingerMiddle : Option ℚ := none
  bollingerLower : Option ℚ := none
  stochasticK : Option ℚ := none
  stochasticD : Option ℚ := none
  atr14 : Option ℚ := none
  adx14 : Option ℚ := none
  deriving Repr, DecidableEq, Inhabited

/-- Row `i` of `calculateAllIndicators`' result: `data.date` zipped with the
`i`-th entry of every indicator array
(`isNaN(x[i]) ? undefined : x[i]` becomes the `Option` entry itself). -/
def indicatorRow (sq : ℚ → ℚ) (priceData : List PriceData) (i : ℕ) :
    IndicatorResult :=
  { date := (priceData.getD i default).date
    rsi14 := (calculateRSI (priceData.map (·.close)) 14).getD i none
    macd := (calculateMACD (priceData.map (·.close)) 12 26 9).1.getD i none
    macdSignal := (calculateMACD (priceData.map (·.close)) 12 26 9).2.1.getD i none
    macdHistogram := (calculateMACD (priceData.map (·.close)) 12 26 9).2.2.getD i none
    sma20 := (calculateSMA (priceData.map (·.close)) 20).getD i none
    sma50 := (calculateSMA (priceData.map (·.close)) 50).getD i none
    sma200 := (calculateSMA (priceData.map (·.close)) 200).getD i none
    ema12 := (calculateEMA (priceData.map (·.close)) 12).getD i none
    ema26 := (calculateEMA (priceData.map (·.close)) 26).getD i none
    bollingerUpper :=
      (calculateBollingerBands sq (priceData.map (·.close)) 20 2).1.getD i none
    bollingerMiddle :=
      (calculateBollingerBands sq (priceData.map (·.close)) 20 2).2.1.getD i none
    bollingerLower :=
      (calculateBollingerBands sq (priceData.map (·.close)) 20 2).2.2.getD i none
    stochasticK := (calculateStochastic (priceData.map (·.high))
      (priceData.map (·.low)) (priceData.map (·.close)) 14 3).1.getD i none
    stochasticD := (calculateStochastic (priceData.map (·.high))
      (priceData.map (·.low)) (priceData.map (·.close)) 14 3).2.getD i none
    atr14 := (calculateATR (priceData.map (·.high)) (priceData.map (·.low))
      (priceData.map (·.close)) 14).getD i none
    adx14 := (calculateADX (priceData.map (·.high)) (priceData.map (·.low))
      (priceData.map (·.close)) 14).getD i none }

/-- `TechnicalIndicators.calculateAllIndicators(priceData)`: runs every
indicator on the close/high/low series and zips the results by index into
one `IndicatorResult` per input row. -/
def calculateAllIndicators (sq : ℚ → ℚ) (priceData : List PriceData) :
    List IndicatorResult :=
  (List.range priceData.length).map (indicatorRow sq priceData)

/-! ## Indicator Pipeline (`technicalIndicators.service.ts`) -/

/-- The save guard of `calculateAndSaveIndicators`' upsert loop:
`indicator.rsi14 !== undefined || indicator.sma20 !== undefined`. -/
def shouldSaveB (r : IndicatorResult) : Bool :=
  r.rsi14.isSome || r.sma20.isSome

/-- The snapshots `calculateAndSaveIndicators` upserts for a price history:
exactly those rows of `calculateAllIndicators` passing the save guard. -/
def savedIndicators (sq : ℚ → ℚ) (priceData : List PriceData) :
    List IndicatorResult :=
  (calculateAllIndicators sq priceData).filter shouldSaveB

/-! ## Prediction Validator (`predictionValidation.job.ts`)

`today` is the wall-clock date floored to midnight, passed as an explicit
integer-day parameter; the price store is the list of `StockPrice` rows. -/

/-- A predicted direction; the prediction-generation collaborator only ever
produces `'up'` or `'down'` (data model §3 of the spec and
`create-mock-predictions.ts`). -/
inductive Dir where
  | up
  | down
  deriving Repr, DecidableEq, Inhabited

/-- A realized direction: `change > 0 ? 'up' : change < 0 ? 'down' : 'flat'`. -/
inductive Dir3 where
  | up
  | down
  | flat
  deriving Repr, DecidableEq, Inhabited

/-- A `StockPrice` row (the fields the validator reads). -/
structure StockPrice where
  companyId : ℕ
  date : ℤ
  close : ℚ
  deriving Repr, DecidableEq, Inhabited

/-- A `Prediction` row: the immutable creation-time fields plus the nullable
enrichment fields written by the validator. -/
structure Prediction where
  id : ℕ
  companyId : ℕ
  predictionDate : ℤ
  targetDate : ℤ
  predictedDirection : Dir
  predictedPrice : Option ℚ
  confidence : ℚ
  actualDirection : Option Dir3 := none
  actualPrice : Option ℚ := none
  actualChangePercent : Option ℚ := none
  isCorrect : Option Bool := none
  confidenceWeightedScore : Option ℚ := none
  priceErrorPercent : Option ℚ := none
  tradingReturn : Option ℚ := none
  deriving Repr, DecidableEq, Inhabited

/-- The `stockPrice.findFirst` with `date ∈ [targetDate, targetDate+1day)`:
with one row per (company, integer day) this is the row dated exactly
`targetDate`. -/
def findActual (ps : List StockPrice) (cid : ℕ) (t : ℤ) : Option StockPrice :=
  ps.find? fun q => q.companyId == cid && q.date == t

/-- The `stockPrice.findFirst` with `date ≤ predictionDate`, `orderBy date
desc`: the row of maximal date not after `d`. -/
def findPrev (ps : List StockPrice) (cid : ℕ) (d : ℤ) : Option StockPrice :=
  (ps.filter fun q => q.companyId == cid && decide (q.date ≤ d)).foldl
    (fun acc q =>
      match acc with
      | none => some q
      | some a => if a.date < q.date then some q else some a)
    none

/-- `actualDirection` from the price change. -/
def directionOf (actualChange : ℚ) : Dir3 :=
  if actualChange > 0 then Dir3.up else if actualChange < 0 then Dir3.down else Dir3.flat

/-- The validator's correctness test: predicted `up` and realized `up`, or
predicted `down` and realized `down`. -/
def isCorrectOf (predicted : Dir) (actual : Dir3) : Bool :=
  (predicted == Dir.up && actual == Dir3.up) ||
    (predicted == Dir.down && actual == Dir3.down)

/-- Modelled from the spec: the runtime type of `prediction.predictedPrice`
is fixed by the Prisma schema, which is not under `src/`. The codebase's
pervasive `Number(...)` wrapping of Prisma numerics (including
`Number(prediction.predictedPrice)` on the very next source line) indicates
a `Decimal` column, which as a JavaScript object is truthy even at value 0,
and the spec computes the MAPE-like price error "when predictedPrice
present". The guard `if (prediction.predictedPrice)` is therefore modelled
as a presence (non-null) test: a zero predicted price does produce a price
error. -/
def priceErrorOf (predictedPrice : Option ℚ) (actualClose : ℚ) : Option ℚ :=
  match predictedPrice with
  | some predicted => some (|predicted - actualClose| / actualClose * 100)
  | none => none

/-- The validator's simulated single-trade return: only when
`confidence > 0.50`; buy (or short) at the baseline close, exit at the
actual close, scale by confidence, subtract the fixed `0.2` fee. -/
def tradingReturnOf (confidence : ℚ) (predicted : Dir) (baselineClose actualClose : ℚ) :
    Option ℚ :=
  if confidence > 1/2 then
    match predicted with
    | Dir.up =>
        some ((actualClose - baselineClose) / baselineClose * 100 * confidence - 1/5)
    | Dir.down =>
        some ((baselineClose - actualClose) / baselineClose * 100 * confidence - 1/5)
  else none

/-- The `x ? parseFloat(x.toFixed(2)) : null` persistence idiom: a computed
metric that is `null` or exactly `0` is stored as `null`, anything else is
stored rounded to two decimals. -/
def persistRound2 (x : Option ℚ) : Option ℚ :=
  match x with
  | some v => if v = 0 then none else some (round2 v)
  | none => none

/-- One iteration of `validatePredictions`' loop for one prediction: the
`findMany` filter (`targetDate < today`, `isCorrect: null`) is re-checked
here so that the whole run is `List.map resolveOne`; a prediction outside
the filter, or whose target-date or baseline price row is missing, is
returned unchanged (it stays pending). -/
def resolveOne (ps : List StockPrice) (today : ℤ) (p : Prediction) : Prediction :=
  if p.targetDate < today ∧ p.isCorrect = none then
    match findActual ps p.companyId p.targetDate with
    | none => p
    | some actualPrice =>
      match findPrev ps p.companyId p.predictionDate with
      | none => p
      | some previousPrice =>
          let actualChange := actualPrice.close - previousPrice.close
          let actualChangePercent := actualChange / previousPrice.close * 100
          let actualDirection := directionOf actualChange
          let isCorrect := isCorrectOf p.predictedDirection actualDirection
          let confidenceWeightedScore := if isCorrect then p.confidence else 0
          let priceErrorPercent := priceErrorOf p.predictedPrice actualPrice.close
          let tradingReturn :=
            tradingReturnOf p.confidence p.predictedDirection previousPrice.close
              actualPrice.close
          { p with
            actualDirection := some actualDirection
            actualPrice := some actualPrice.close
            actualChangePercent := some (round2 actualChangePercent)
            isCorrect := some isCorrect
            confidenceWeightedScore := some (round4 confidenceWeightedScore)
            priceErrorPercent := persistRound2 priceErrorPercent
            tradingReturn := persistRound2 tradingReturn }
  else p

/-- The `prediction.findMany` selection of `validatePredictions`:
`targetDate < today` and `isCorrect: null`. -/
def selectPending (today : ℤ) (db : List Prediction) : List Prediction :=
  db.filter fun p => decide (p.targetDate < today) && p.isCorrect.isNone

/-- A full `validatePredictions` run over the prediction table: each selected
row is updated in place by its unique id, every other row is untouched. -/
def validatePredictions (ps : List StockPrice) (today : ℤ)
    (db : List Prediction) : List Prediction :=
  db.map (resolveOne ps today)

/-! ## Trading Simulator (`tradingSimulator.service.ts`) -/

/-- `TradingStrategy` of the simulator. -/
structure TradingStrategy where
  minConfidence : ℚ
  positionSize : ℚ
  maxPositionsPerStock : ℕ
  stopLoss : Option ℚ := none
  takeProfit : Option ℚ := none
  deriving Repr, DecidableEq, Inhabited

/-- `DEFAULT_STRATEGY`: trade above 55% confidence, 10,000 NOK per trade,
one position per stock. -/
def DEFAULT_STRATEGY : TradingStrategy :=
  { minConfidence := 11/20, positionSize := 10000, maxPositionsPerStock := 1 }

/-- A resolved prediction row as the simulator's query returns it
(`isCorrect: { not: null }` guarantees the enrichment fields are set, so
they appear here as plain values; `ticker` comes from the included company). -/
structure SimPrediction where
  companyId : ℕ
  ticker : String
  targetDate : ℤ
  confidence : ℚ
  predictedDirection : Dir
  actualDirection : Dir3
  actualPrice : ℚ
  actualChangePercent : ℚ
  deriving Repr, DecidableEq, Inhabited

/-- `'BUY' | 'SELL' | 'SHORT'`. -/
inductive TradeType where
  | BUY
  | SELL
  | SHORT
  deriving Repr, DecidableEq, Inhabited

/-- One entry of the simulator's trade ledger (`return` is `ret`:
`return` is a Lean keyword). -/
structure Trade where
  date : ℤ
  ticker : String
  type : TradeType
  confidence : ℚ
  entryPrice : ℚ
  exitPrice : ℚ
  ret : ℚ
  retPercent : ℚ
  deriving Repr, DecidableEq, Inhabited

/-- The mutable state threaded through `simulateHistoricalTrading`'s loop.
`openPositions` mirrors the source's `Map(companyId -> position)`: the loop
tests membership but — exactly as in the source — never inserts into it. -/
structure SimState where
  capital : ℚ
  trades : List Trade
  openPositions : List ℕ
  deriving Repr, DecidableEq, Inhabited

/-- One iteration of the `for (const prediction of predictions)` loop of
`simulateHistoricalTrading`: skip when the company already has an open
position or capital is short; otherwise execute one of the four trade
branches, appending the trade and crediting its net return to capital. -/
def simStep (strategy : TradingStrategy) (st : SimState) (p : SimPrediction) :
    SimState :=
  if st.openPositions.contains p.companyId then st
  else if st.capital < strategy.positionSize then st
  else
    let positionSize := strategy.positionSize
    let entryPrice := p.actualPrice
    if p.actualDirection = Dir3.up ∧ p.predictedDirection = Dir.up then
      let previousPrice := entryPrice / (1 + p.actualChangePercent / 100)
      let shares := positionSize / previousPrice
      let tradeReturn := shares * (entryPrice - previousPrice)
      let returnPercent := tradeReturn / positionSize * 100
      let trade : Trade :=
        { date := p.targetDate
          ticker := p.ticker
          type := TradeType.BUY
          confidence := p.confidence
          entryPrice := previousPrice
          exitPrice := entryPrice
          ret := tradeReturn - positionSize * (1/500)
          retPercent := returnPercent - 1/5 }
      { st with
        trades := st.trades ++ [trade]
        capital := st.capital + (tradeReturn - positionSize * (1/500)) }
    else if p.actualDirection = Dir3.down ∧ p.predictedDirection = Dir.down then
      let previousPrice := entryPrice / (1 + p.actualChangePercent / 100)
      let shares := positionSize / previousPrice
      let tradeReturn := shares * (previousPrice - entryPrice)
      let returnPercent := tradeReturn / positionSize * 100
      let trade : Trade :=
        { date := p.targetDate
          ticker := p.ticker
          type := TradeType.SHORT
          confidence := p.confidence
          entryPrice := previousPrice
          exitPrice := entryPrice
          ret := tradeReturn - positionSize * (1/500)
          retPercent := returnPercent - 1/5 }
      { st with
        trades := st.trades ++ [trade]
        capital := st.capital + (tradeReturn - positionSize * (1/500)) }
    else
      let previousPrice := entryPrice / (1 + p.actualChangePercent / 100)
      if p.predictedDirection = Dir.up then
        let shares := positionSize / previousPrice
        let tradeReturn := shares * (entryPrice - previousPrice)
        let returnPercent := tradeReturn / positionSize * 100
        let trade : Trade :=
          { date := p.targetDate
            ticker := p.ticker
            type := TradeType.BUY
            confidence := p.confidence
            entryPrice := previousPrice
            exitPrice := entryPrice
            ret := tradeReturn - positionSize * (1/500)
            retPercent := returnPercent - 1/5 }
        { st with
          trades := st.trades ++ [trade]
          capital := st.capital + (tradeReturn - positionSize * (1/500)) }
      else
        let shares := positionSize / previousPrice
        let tradeReturn := shares * (previousPrice - entryPrice)
        let returnPercent := tradeReturn / positionSize * 100
        let trade : Trade :=
          { date := p.targetDate
            ticker := p.ticker
            type := TradeType.SHORT
            confidence := p.confidence
            entryPrice := previousPrice
            exitPrice := entryPrice
            ret := tradeReturn - positionSize * (1/500)
            retPercent := returnPercent - 1/5 }
        { st with
          trades := st.trades ++ [trade]
          capital := st.capital + (tradeReturn - positionSize * (1/500)) }

/-- `startingCapital = 100000`. -/
def startingCapital : ℚ := 100000

/-- The replay loop of `simulateHistoricalTrading` before summary statistics:
the input list stands for the query result ordered by ascending `targetDate`;
the query's `confidence: { gte: minConfidence }` clause is the filter. -/
def simulateHistoricalTrading (strategy : TradingStrategy)
    (predictions : List SimPrediction) : SimState :=
  (predictions.filter fun p => decide (strategy.minConfidence ≤ p.confidence)).foldl
    (simStep strategy) { capital := startingCapital, trades := [], openPositions := [] }

/-- A prediction row as `getTradingRecommendations`' query returns it
(`latestClose` is the included company's most recent stock price, if any). -/
structure RecPrediction where
  ticker : String
  companyName : String
  predictedDirection : Dir
  predictedPrice : Option ℚ
  confidence : ℚ
  targetDate : ℤ
  isCorrect : Option Bool
  latestClose : Option ℚ
  deriving Repr, DecidableEq, Inhabited

/-- `'BUY' | 'SHORT' | 'HOLD'`. -/
inductive RecType where
  | BUY
  | SHORT
  | HOLD
  deriving Repr, DecidableEq, Inhabited

/-- One recommendation of `getTradingRecommendations` (the human-readable
`reasoning` string is presentation-only and omitted). -/
structure Recommendation where
  ticker : String
  companyName : String
  recommendation : RecType
  confidence : ℚ
  predictedDirection : Dir
  predictedPrice : ℚ
  currentPrice : ℚ
  targetDate : ℤ
  deriving Repr, DecidableEq, Inhabited

/-- The confidence-tier classification of `getTradingRecommendations`:
`≥ 0.70` and `≥ 0.60` both map `up` to BUY and `down` to SHORT (they differ
only in the reasoning text), anything lower is HOLD. -/
def recommendationOf (confidence : ℚ) (predictedDirection : Dir) : RecType :=
  if confidence ≥ 7/10 then
    (if predictedDirection = Dir.up then RecType.BUY else RecType.SHORT)
  else if confidence ≥ 3/5 then
    (if predictedDirection = Dir.up then RecType.BUY else RecType.SHORT)
  else RecType.HOLD

/-- `getTradingRecommendations(minConfidence)`: the query filter
(`targetDate ≥ now`, `confidence ≥ minConfidence`, `isCorrect: null`)
followed by the per-prediction classification.  `Number(x) || 0` on the
nullable prices becomes `Option.getD 0`. -/
def getTradingRecommendations (now : ℤ) (minConfidence : ℚ)
    (db : List RecPrediction) : List Recommendation :=
  (db.filter fun p =>
    decide (now ≤ p.targetDate) && decide (minConfidence ≤ p.confidence) &&
      p.isCorrect.isNone).map fun p =>
    { ticker := p.ticker
      companyName := p.companyName
      recommendation := recommendationOf p.confidence p.predictedDirection
      confidence := p.confidence
      predictedDirection := p.predictedDirection
      predictedPrice := p.predictedPrice.getD 0
      currentPrice := p.latestClose.getD 0
      targetDate := p.targetDate }

/-! ## Concrete inputs used by the example cases and counterexamples -/

/-- The spec's example price series (its first ten values, repeated to reach
twenty points). -/
def ex20 : List ℚ :=
  [100, 102, 101, 105, 103, 107, 108, 106, 110, 109,
   100, 102, 101, 105, 103, 107, 108, 106, 110, 109]

/-- A price series with one early loss followed by gains only. -/
def c3Prices : List ℚ := [2, 1, 2, 3]

/-- A twelve-day constant price history: long enough for `ema12` (first
defined at index 11) but short of `rsi14` and `sma20`. -/
def c2Prices : List PriceData :=
  List.replicate 12 { date := 0, open' := 100, high := 100, low := 100, close := 100, volume := 0 }

/-- Price rows for the spec's validator example: baseline close 100 on the
prediction date, close 110 on the target date. -/
def c5Prices : List StockPrice :=
  [{ companyId := 1, date := 0, close := 100 },
   { companyId := 1, date := 5, close := 110 }]

/-- The spec's validator example prediction: direction `up`, confidence 0.8. -/
def c5Pred : Prediction :=
  { id := 1, companyId := 1, predictionDate := 0, targetDate := 5,
    predictedDirection := Dir.up, predictedPrice := none, confidence := 4/5 }

/-- Price rows making the validator's computed trading return exactly zero
for `c9Pred`: gross return 0.25%, times confidence 0.8, minus the 0.2 fee. -/
def c9Prices : List StockPrice :=
  [{ companyId := 1, date := 0, close := 100 },
   { companyId := 1, date := 5, close := 401/4 }]

/-- A prediction with confidence above 0.50 whose computed trading return is
exactly zero on `c9Prices`. -/
def c9Pred : Prediction :=
  { id := 1, companyId := 1, predictionDate := 0, targetDate := 5,
    predictedDirection := Dir.up, predictedPrice := none, confidence := 4/5 }

/-- A prediction identical to the spec's worked example but carrying a
predicted price of exactly `0`, used to exhibit that the zero price is
treated as present. -/
def c9ZeroPred : Prediction :=
  { id := 1, companyId := 1, predictionDate := 0, targetDate := 5,
    predictedDirection := Dir.up, predictedPrice := some 0, confidence := 4/5 }

/-- First of two qualifying resolved predictions for the same instrument. -/
def c1P1 : SimPrediction :=
  { companyId := 1, ticker := "ACME", targetDate := 0, confidence := 3/5,
    predictedDirection := Dir.up, actualDirection := Dir3.up,
    actualPrice := 110, actualChangePercent := 10 }

/-- Second qualifying resolved prediction for the same instrument, five days
later. -/
def c1P2 : SimPrediction :=
  { companyId := 1, ticker := "ACME", targetDate := 5, confidence := 3/5,
    predictedDirection := Dir.up, actualDirection := Dir3.up,
    actualPrice := 110, actualChangePercent := 10 }

/-- An unresolved future prediction at exactly the 0.60 confidence bar. -/
def c10Pred : RecPrediction :=
  { ticker := "ACME", companyName := "Acme ASA", predictedDirection := Dir.up,
    predictedPrice := some 100, confidence := 3/5, targetDate := 4,
    isCorrect := none, latestClose := some 98 }

/-- The recommendation `getTradingRecommendations` produces for `c10Pred`. -/
def c10Rec : Recommendation :=
  { ticker := "ACME", companyName := "Acme ASA",
    recommendation := RecType.BUY, confidence := 3/5,
    predictedDirection := Dir.up, predictedPrice := 100,
    currentPrice := 98, targetDate := 4 }

/-! ## General lemmas about the embedded definitions -/

theorem countP_range_le (k L : ℕ) :
    (List.range L).countP (fun i => decide (k ≤ i)) = L - k := by
  induction L with
  | zero => simp
  | succ n ih =>
      rw [List.range_succ, List.countP_append, ih]
      by_cases h : k ≤ n <;> simp [h] <;> omega

theorem calculateSMA_length (prices : List ℚ) (period : ℕ) :
    (calculateSMA prices period).length = prices.length := by
  simp [calculateSMA]

theorem calculateSMA_getElem? (prices : List ℚ) (period : ℕ) (i : ℕ)
    (hi : i < prices.length) :
    (calculateSMA prices period)[i]? =
      some (if i < period - 1 then none
        else some (((prices.drop (i + 1 - period)).take period).sum / (period : ℚ))) := by
  simp [calculateSMA, List.getElem?_map, List.getElem?_range, hi]

theorem calculateSMA_getD (prices : List ℚ) (period : ℕ) (i : ℕ)
    (hi : i < prices.length) :
    (calculateSMA prices period).getD i none =
      (if i < period - 1 then none
        else some (((prices.drop (i + 1 - period)).take period).sum / (period : ℚ))) := by
  simp [List.getD_eq_getElem?_getD, calculateSMA_getElem? prices period i hi]

theorem calculateSMA_defined_count (prices : List ℚ) (period : ℕ) :
    (calculateSMA prices period).countP (fun o => o.isSome) =
      prices.length - (period - 1) := by
  rw [calculateSMA, List.countP_map]
  have h : ∀ i ∈ List.range prices.length,
      (((fun o => Option.isSome o) ∘ fun i =>
        if i < period - 1 then none
        else some (((prices.drop (i + 1 - period)).take period).sum / (period : ℚ))) i
      = true) ↔ ((fun i => decide (period - 1 ≤ i)) i = true) := by
    intro i _
    by_cases h : i < period - 1 <;> simp [h] <;> omega
  rw [List.countP_congr h, countP_range_le]

theorem calculateEMA_length (prices : List ℚ) (period : ℕ) :
    (calculateEMA prices period).length = prices.length := by
  simp [calculateEMA]

theorem calculateEMA_getD (prices : List ℚ) (period : ℕ) (i : ℕ)
    (hi : i < prices.length) :
    (calculateEMA prices period).getD i none =
      (if i < period - 1 then none
        else some (emaFrom prices period (i - (period - 1)))) := by
  simp [calculateEMA, List.getD_eq_getElem?_getD, List.getElem?_map,
    List.getElem?_range, hi]

theorem calculateRSI_length (prices : List ℚ) (period : ℕ) :
    (calculateRSI prices period).length = prices.length := by
  simp [calculateRSI]

theorem calculateRSI_getElem? (prices : List ℚ) (period : ℕ) (i : ℕ)
    (hi : i < prices.length) :
    (calculateRSI prices period)[i]? =
      some (if i < period then none
        else some (rsiOf (rsiAvgs prices period (i - period)).1
          (rsiAvgs prices period (i - period)).2)) := by
  simp [calculateRSI, List.getElem?_map, List.getElem?_range, hi]

theorem calculateRSI_getD (prices : List ℚ) (period : ℕ) (i : ℕ)
    (hi : i < prices.length) :
    (calculateRSI prices period).getD i none =
      (if i < period then none
        else some (rsiOf (rsiAvgs prices period (i - period)).1
          (rsiAvgs prices period (i - period)).2)) := by
  simp [List.getD_eq_getElem?_getD, calculateRSI_getElem? prices period i hi]

/--
C7: for every price series and every positive period, `calculateSMA` keeps
the input length, defines exactly `max(0, L − period + 1)` entries (here the
truncated natural subtraction `L + 1 − period`), namely the entries at
indices `period − 1` through `L − 1`, each equal to the arithmetic mean of
the trailing `period`-element window; and on the spec's example series the
entry at index 4 of `SMA(values, 5)` is `102.2`.
-/
theorem c7_sma_window_mean (prices : List ℚ) (period : ℕ) (hp : 0 < period) :
    (calculateSMA prices period).length = prices.length ∧
    (calculateSMA prices period).countP (fun o => o.isSome) =
      prices.length + 1 - period ∧
    (∀ i, i < prices.length → i + 1 < period →
      (calculateSMA prices period)[i]? = some none) ∧
    (∀ i, i < prices.length → period ≤ i + 1 →
      (calculateSMA prices period)[i]? =
        some (some (((prices.drop (i + 1 - period)).take period).sum / (period : ℚ)))) ∧
    (calculateSMA ex20 5)[4]? = some (some (102.2 : ℚ)) := by
  refine ⟨calculateSMA_length prices period, ?_, ?_, ?_, ?_⟩
  · rw [calculateSMA_defined_count]
    omega
  · intro i hiL hip
    rw [calculateSMA_getElem? prices period i hiL, if_pos (by omega)]
  · intro i hiL hip
    rw [calculateSMA_getElem? prices period i hiL, if_neg (by omega)]
  · have h4 : (4 : ℕ) < ex20.length := by simp [ex20]
    rw [calculateSMA_getElem? ex20 5 4 h4, if_neg (by omega)]
    norm_num [ex20]

/--
Witness for `c7_sma_window_mean` at the spec's example: series `ex20`,
period 5, index 4 defined with value `102.2`.
-/
theorem c7_sma_window_mean_witness :
    (0 : ℕ) < 5 ∧ (calculateSMA ex20 5)[4]? = some (some (102.2 : ℚ)) :=
  ⟨by norm_num, (c7_sma_window_mean ex20 5 (by norm_num)).2.2.2.2⟩

theorem gainAt_nonneg (prices : List ℚ) (j : ℕ) : 0 ≤ gainAt prices j :=
  le_max_right _ _

theorem lossAt_nonneg (prices : List ℚ) (j : ℕ) : 0 ≤ lossAt prices j :=
  le_max_right _ _

theorem wilderStep_nonneg (period : ℕ) (hp : 0 < period) {a x : ℚ}
    (ha : 0 ≤ a) (hx : 0 ≤ x) : 0 ≤ wilderStep period a x := by
  have hp1 : (1 : ℚ) ≤ (period : ℚ) := by exact_mod_cast hp
  have hnum : 0 ≤ a * ((period : ℚ) - 1) + x :=
    add_nonneg (mul_nonneg ha (by linarith)) hx
  exact div_nonneg hnum (by linarith)

theorem rsiAvgs_nonneg (prices : List ℚ) (period : ℕ) (hp : 0 < period) :
    ∀ k, 0 ≤ (rsiAvgs prices period k).1 ∧ 0 ≤ (rsiAvgs prices period k).2 := by
  intro k
  induction k with
  | zero =>
      have hg : 0 ≤ ((List.range period).map fun j => gainAt prices (j + 1)).sum := by
        apply List.sum_nonneg
        intro x hx
        obtain ⟨j, hj, rfl⟩ := List.mem_map.mp hx
        exact gainAt_nonneg prices (j + 1)
      have hl : 0 ≤ ((List.range period).map fun j => lossAt prices (j + 1)).sum := by
        apply List.sum_nonneg
        intro x hx
        obtain ⟨j, hj, rfl⟩ := List.mem_map.mp hx
        exact lossAt_nonneg prices (j + 1)
      constructor
      · simp only [rsiAvgs]
        exact div_nonneg hg (by positivity)
      · simp only [rsiAvgs]
        exact div_nonneg hl (by positivity)
  | succ k ih =>
      constructor
      · simp only [rsiAvgs]
        exact wilderStep_nonneg period hp ih.1 (gainAt_nonneg _ _)
      · simp only [rsiAvgs]
        exact wilderStep_nonneg period hp ih.2 (lossAt_nonneg _ _)

theorem rsiOf_bounds {a b : ℚ} (ha : 0 ≤ a) (hb : 0 ≤ b) :
    0 ≤ rsiOf a b ∧ rsiOf a b ≤ 100 := by
  unfold rsiOf
  by_cases hb0 : b = 0
  · by_cases ha0 : a = 0 <;> simp [hb0, ha0] <;> norm_num
  · have hbpos : 0 < b := lt_of_le_of_ne hb (Ne.symm hb0)
    have hrs : 0 ≤ a / b := div_nonneg ha hbpos.le
    have hden : (0 : ℚ) < 1 + a / b := by linarith
    have h1 : 100 / (1 + a / b) ≤ 100 := div_le_self (by norm_num) (by linarith)
    have h2 : 0 < 100 / (1 + a / b) := div_pos (by norm_num) hden
    rw [if_neg hb0]
    constructor <;> linarith

/-- If every price change from the start of the series through index
`period + k` is a gain, the Wilder loss average is zero and the gain
average is positive. -/
theorem rsiAvgs_all_gains (prices : List ℚ) (period : ℕ) (hp : 0 < period) :
    ∀ k, (∀ j, 1 ≤ j → j ≤ period + k →
        prices.getD (j - 1) 0 < prices.getD j 0) →
      (rsiAvgs prices period k).2 = 0 ∧ 0 < (rsiAvgs prices period k).1 := by
  intro k
  induction k with
  | zero =>
      intro hall
      have hz : ((List.range period).map fun j => lossAt prices (j + 1)).sum = 0 := by
        apply List.sum_eq_zero
        intro x hx
        obtain ⟨j, hj, rfl⟩ := List.mem_map.mp hx
        have hj' := List.mem_range.mp hj
        have hlt := hall (j + 1) (by omega) (by omega)
        simp only [Nat.add_sub_cancel] at hlt
        unfold lossAt
        simp only [Nat.add_sub_cancel]
        rw [max_eq_right (by linarith)]
      have hpos : 0 < ((List.range period).map fun j => gainAt prices (j + 1)).sum := by
        apply List.sum_pos
        · intro x hx
          obtain ⟨j, hj, rfl⟩ := List.mem_map.mp hx
          have hj' := List.mem_range.mp hj
          have hlt := hall (j + 1) (by omega) (by omega)
          simp only [Nat.add_sub_cancel] at hlt
          unfold gainAt
          simp only [Nat.add_sub_cancel]
          rw [max_eq_left (by linarith)]
          linarith
        · intro hcon
          have := congrArg List.length hcon
          simp at this
          omega
      constructor
      · simp only [rsiAvgs]
        rw [hz]
        simp
      · simp only [rsiAvgs]
        exact div_pos hpos (by positivity)
  | succ k ih =>
      intro hall
      obtain ⟨ihl, ihg⟩ := ih (fun j h1 h2 => hall j h1 (by omega))
      have hstep := hall (period + (k + 1)) (by omega) le_rfl
      have hgain : 0 < gainAt prices (period + (k + 1)) := by
        unfold gainAt
        rw [max_eq_left (by linarith)]
        linarith
      have hloss : lossAt prices (period + (k + 1)) = 0 := by
        unfold lossAt
        rw [max_eq_right (by linarith)]
      constructor
      · simp only [rsiAvgs]
        rw [ihl, hloss]
        simp [wilderStep]
      · have hp1 : (1 : ℚ) ≤ (period : ℚ) := by exact_mod_cast hp
        have hnum : 0 < (rsiAvgs prices period k).1 * ((period : ℚ) - 1) +
            gainAt prices (period + (k + 1)) :=
          add_pos_of_nonneg_of_pos (mul_nonneg ihg.le (by linarith)) hgain
        simp only [rsiAvgs, wilderStep]
        exact div_pos hnum (by positivity)

/-- If every price change from the start of the series through index
`period + k` is a loss, the Wilder gain average is zero and the loss
average is positive. -/
theorem rsiAvgs_all_losses (prices : List ℚ) (period : ℕ) (hp : 0 < period) :
    ∀ k, (∀ j, 1 ≤ j → j ≤ period + k →
        prices.getD j 0 < prices.getD (j - 1) 0) →
      (rsiAvgs prices period k).1 = 0 ∧ 0 < (rsiAvgs prices period k).2 := by
  intro k
  induction k with
  | zero =>
      intro hall
      have hz : ((List.range period).map fun j => gainAt prices (j + 1)).sum = 0 := by
        apply List.sum_eq_zero
        intro x hx
        obtain ⟨j, hj, rfl⟩ := List.mem_map.mp hx
        have hj' := List.mem_range.mp hj
        have hlt := hall (j + 1) (by omega) (by omega)
        simp only [Nat.add_sub_cancel] at hlt
        unfold gainAt
        simp only [Nat.add_sub_cancel]
        rw [max_eq_right (by linarith)]
      have hpos : 0 < ((List.range period).map fun j => lossAt prices (j + 1)).sum := by
        apply List.sum_pos
        · intro x hx
          obtain ⟨j, hj, rfl⟩ := List.mem_map.mp hx
          have hj' := List.mem_range.mp hj
          have hlt := hall (j + 1) (by omega) (by omega)
          simp only [Nat.add_sub_cancel] at hlt
          unfold lossAt
          simp only [Nat.add_sub_cancel]
          rw [max_eq_left (by linarith)]
          linarith
        · intro hcon
          have := congrArg List.length hcon
          simp at this
          omega
      constructor
      · simp only [rsiAvgs]
        rw [hz]
        simp
      · simp only [rsiAvgs]
        exact div_pos hpos (by positivity)
  | succ k ih =>
      intro hall
      obtain ⟨ihg, ihl⟩ := ih (fun j h1 h2 => hall j h1 (by omega))
      have hstep := hall (period + (k + 1)) (by omega) le_rfl
      have hloss : 0 < lossAt prices (period + (k + 1)) := by
        unfold lossAt
        rw [max_eq_left (by linarith)]
        linarith
      have hgain : gainAt prices (period + (k + 1)) = 0 := by
        unfold gainAt
        rw [max_eq_right (by linarith)]
      constructor
      · simp only [rsiAvgs]
        rw [ihg, hgain]
        simp [wilderStep]
      · have hp1 : (1 : ℚ) ≤ (period : ℚ) := by exact_mod_cast hp
        have hnum : 0 < (rsiAvgs prices period k).2 * ((period : ℚ) - 1) +
            lossAt prices (period + (k + 1)) :=
          add_pos_of_nonneg_of_pos (mul_nonneg ihl.le (by linarith)) hloss
        simp only [rsiAvgs, wilderStep]
        exact div_pos hnum (by positivity)

/--
C3 (amended): every defined entry of `calculateRSI` lies in `[0, 100]`; and
the extreme values are reached when the gain/loss condition holds over the
whole series up to the entry (not merely over the trailing window, which
`c3_counterexample` refutes): if every change from the start through index
`i` is a gain the entry at `i` is `100`, if every such change is a loss it
is `0`.
-/
theorem c3_rsi_bounds (prices : List ℚ) (period i : ℕ) (hp : 0 < period)
    (hiL : i < prices.length) :
    (∀ x, (calculateRSI prices period)[i]? = some (some x) → 0 ≤ x ∧ x ≤ 100) ∧
    (period ≤ i →
      (∀ j, 1 ≤ j → j ≤ i → prices.getD (j - 1) 0 < prices.getD j 0) →
      (calculateRSI prices period)[i]? = some (some 100)) ∧
    (period ≤ i →
      (∀ j, 1 ≤ j → j ≤ i → prices.getD j 0 < prices.getD (j - 1) 0) →
      (calculateRSI prices period)[i]? = some (some 0)) := by
  refine ⟨?_, ?_, ?_⟩
  · intro x hx
    rw [calculateRSI_getElem? prices period i hiL] at hx
    by_cases h : i < period
    · simp [h] at hx
    · simp only [h, if_false, Option.some.injEq] at hx
      subst hx
      exact rsiOf_bounds (rsiAvgs_nonneg prices period hp (i - period)).1
        (rsiAvgs_nonneg prices period hp (i - period)).2
  · intro hip hall
    rw [calculateRSI_getElem? prices period i hiL, if_neg (by omega)]
    obtain ⟨hl, hg⟩ := rsiAvgs_all_gains prices period hp (i - period)
      (fun j h1 h2 => hall j h1 (by omega))
    rw [hl]
    simp [rsiOf, ne_of_gt hg]
  · intro hip hall
    rw [calculateRSI_getElem? prices period i hiL, if_neg (by omega)]
    obtain ⟨hg, hl⟩ := rsiAvgs_all_losses prices period hp (i - period)
      (fun j h1 h2 => hall j h1 (by omega))
    rw [hg]
    simp only [rsiOf, if_neg (ne_of_gt hl)]
    norm_num

/--
C3 counterexample to the claim as stated: on `[2, 1, 2, 3]` with period 2,
both price changes inside the trailing window of length 2 ending at index 3
are gains, yet the RSI entry there is `75`, not `100` — the early loss at
index 1 persists through Wilder smoothing.
-/
theorem c3_counterexample :
    c3Prices.getD 1 0 < c3Prices.getD 2 0 ∧
    c3Prices.getD 2 0 < c3Prices.getD 3 0 ∧
    (calculateRSI c3Prices 2)[3]? = some (some 75) ∧ (75 : ℚ) ≠ 100 := by
  have h3 : (3 : ℕ) < c3Prices.length := by simp [c3Prices]
  have hr : List.range 2 = [0, 1] := rfl
  have e0 : c3Prices.getD 0 0 = 2 := rfl
  have e1 : c3Prices.getD 1 0 = 1 := rfl
  have e2 : c3Prices.getD 2 0 = 2 := rfl
  have e3 : c3Prices.getD 3 0 = 3 := rfl
  have f0 : c3Prices[0]?.getD 0 = 2 := rfl
  have f1 : c3Prices[1]?.getD 0 = 1 := rfl
  have f2 : c3Prices[2]?.getD 0 = 2 := rfl
  have f3 : c3Prices[3]?.getD 0 = 3 := rfl
  refine ⟨?_, ?_, ?_, by norm_num⟩
  · rw [e1, e2]
    norm_num
  · rw [e2, e3]
    norm_num
  · rw [calculateRSI_getElem? c3Prices 2 3 h3, if_neg (by omega)]
    norm_num [rsiAvgs, wilderStep, gainAt, lossAt, rsiOf, hr, e0, e1, e2, e3,
      f0, f1, f2, f3]

/--
Witness for `c3_rsi_bounds` on the all-gains series `[1, 2, 3]` with
period 2: the entry at index 2 is defined and equals 100.
-/
theorem c3_rsi_bounds_witness :
    (0 : ℕ) < 2 ∧ (2 : ℕ) < ([1, 2, 3] : List ℚ).length ∧
    (calculateRSI [1, 2, 3] 2)[2]? = some (some 100) :=
  ⟨by norm_num, by norm_num, (c3_rsi_bounds [1, 2, 3] 2 2 (by norm_num)
    (by norm_num)).2.1 le_rfl
    (by
      intro j h1 h2
      interval_cases j
      · show (1 : ℚ) < 2
        norm_num
      · show (2 : ℚ) < 3
        norm_num)⟩

theorem calculateAllIndicators_length (sq : ℚ → ℚ) (pd : List PriceData) :
    (calculateAllIndicators sq pd).length = pd.length := by
  simp [calculateAllIndicators]

theorem calculateAllIndicators_getElem? (sq : ℚ → ℚ) (pd : List PriceData)
    (i : ℕ) (hi : i < pd.length) :
    (calculateAllIndicators sq pd)[i]? = some (indicatorRow sq pd i) := by
  simp [calculateAllIndicators, List.getElem?_map, List.getElem?_range, hi]

theorem indicatorRow_rsi14 (sq : ℚ → ℚ) (pd : List PriceData) (i : ℕ) :
    (indicatorRow sq pd i).rsi14 =
      (calculateRSI (pd.map (·.close)) 14).getD i none := by simp only [indicatorRow]

theorem indicatorRow_sma20 (sq : ℚ → ℚ) (pd : List PriceData) (i : ℕ) :
    (indicatorRow sq pd i).sma20 =
      (calculateSMA (pd.map (·.close)) 20).getD i none := by simp only [indicatorRow]

theorem indicatorRow_ema12 (sq : ℚ → ℚ) (pd : List PriceData) (i : ℕ) :
    (indicatorRow sq pd i).ema12 =
      (calculateEMA (pd.map (·.close)) 12).getD i none := by simp only [indicatorRow]

theorem indicatorRow_macd (sq : ℚ → ℚ) (pd : List PriceData) (i : ℕ) :
    (indicatorRow sq pd i).macd =
      (calculateMACD (pd.map (·.close)) 12 26 9).1.getD i none := by simp only [indicatorRow]

theorem indicatorRow_macdSignal (sq : ℚ → ℚ) (pd : List PriceData) (i : ℕ) :
    (indicatorRow sq pd i).macdSignal =
      (calculateMACD (pd.map (·.close)) 12 26 9).2.1.getD i none := by simp only [indicatorRow]

theorem indicatorRow_macdHistogram (sq : ℚ → ℚ) (pd : List PriceData) (i : ℕ) :
    (indicatorRow sq pd i).macdHistogram =
      (calculateMACD (pd.map (·.close)) 12 26 9).2.2.getD i none := by simp only [indicatorRow]

theorem indicatorRow_sma50 (sq : ℚ → ℚ) (pd : List PriceData) (i : ℕ) :
    (indicatorRow sq pd i).sma50 =
      (calculateSMA (pd.map (·.close)) 50).getD i none := by simp only [indicatorRow]

theorem indicatorRow_sma200 (sq : ℚ → ℚ) (pd : List PriceData) (i : ℕ) :
    (indicatorRow sq pd i).sma200 =
      (calculateSMA (pd.map (·.close)) 200).getD i none := by simp only [indicatorRow]

theorem indicatorRow_ema26 (sq : ℚ → ℚ) (pd : List PriceData) (i : ℕ) :
    (indicatorRow sq pd i).ema26 =
      (calculateEMA (pd.map (·.close)) 26).getD i none := by simp only [indicatorRow]

theorem indicatorRow_bollingerUpper (sq : ℚ → ℚ) (pd : List PriceData) (i : ℕ) :
    (indicatorRow sq pd i).bollingerUpper =
      (calculateBollingerBands sq (pd.map (·.close)) 20 2).1.getD i none := by simp only [indicatorRow]

theorem indicatorRow_bollingerMiddle (sq : ℚ → ℚ) (pd : List PriceData) (i : ℕ) :
    (indicatorRow sq pd i).bollingerMiddle =
      (calculateBollingerBands sq (pd.map (·.close)) 20 2).2.1.getD i none := by simp only [indicatorRow]

theorem indicatorRow_bollingerLower (sq : ℚ → ℚ) (pd : List PriceData) (i : ℕ) :
    (indicatorRow sq pd i).bollingerLower =
      (calculateBollingerBands sq (pd.map (·.close)) 20 2).2.2.getD i none := by simp only [indicatorRow]

theorem indicatorRow_stochasticK (sq : ℚ → ℚ) (pd : List PriceData) (i : ℕ) :
    (indicatorRow sq pd i).stochasticK =
      (calculateStochastic (pd.map (·.high)) (pd.map (·.low))
        (pd.map (·.close)) 14 3).1.getD i none := by simp only [indicatorRow]

theorem indicatorRow_stochasticD (sq : ℚ → ℚ) (pd : List PriceData) (i : ℕ) :
    (indicatorRow sq pd i).stochasticD =
      (calculateStochastic (pd.map (·.high)) (pd.map (·.low))
        (pd.map (·.close)) 14 3).2.getD i none := by simp only [indicatorRow]

theorem indicatorRow_atr14 (sq : ℚ → ℚ) (pd : List PriceData) (i : ℕ) :
    (indicatorRow sq pd i).atr14 =
      (calculateATR (pd.map (·.high)) (pd.map (·.low))
        (pd.map (·.close)) 14).getD i none := by simp only [indicatorRow]

theorem indicatorRow_adx14 (sq : ℚ → ℚ) (pd : List PriceData) (i : ℕ) :
    (indicatorRow sq pd i).adx14 =
      (calculateADX (pd.map (·.high)) (pd.map (·.low))
        (pd.map (·.close)) 14).getD i none := by simp only [indicatorRow]

/-- The save guard of the upsert loop holds exactly at indices `≥ 14`
(where `rsi14` is first defined; `sma20` only adds indices `≥ 19`). -/
theorem shouldSaveB_indicatorRow (sq : ℚ → ℚ) (pd : List PriceData) (i : ℕ)
    (hi : i < pd.length) :
    shouldSaveB (indicatorRow sq pd i) = decide (14 ≤ i) := by
  have hclen : i < (pd.map (·.close)).length := by simpa using hi
  rw [shouldSaveB, indicatorRow_rsi14, indicatorRow_sma20,
    calculateRSI_getD _ 14 i hclen, calculateSMA_getD _ 20 i hclen]
  by_cases h14 : 14 ≤ i <;> by_cases h19 : 19 ≤ i <;>
    simp [h14, h19, Nat.lt_of_not_le, not_le.mpr] <;> omega

/--
C2 counterexample to the claim as stated: on a twelve-day price history,
the snapshot at index 11 has a defined indicator value (`ema12`), yet the
save guard (`rsi14 !== undefined || sma20 !== undefined`) rejects it, so
`calculateAndSaveIndicators` upserts nothing for that date.
-/
theorem c2_counterexample :
    ((calculateAllIndicators (fun q => q) c2Prices).map
      (fun r => (r.ema12.isSome, shouldSaveB r)))[11]? = some (true, false) := by
  have hlen : c2Prices.length = 12 := by simp [c2Prices]
  have h11 : (11 : ℕ) < c2Prices.length := by omega
  have hclen : (11 : ℕ) < (c2Prices.map (·.close)).length := by simpa using h11
  rw [List.getElem?_map, calculateAllIndicators_getElem? _ _ 11 h11]
  have hema : (indicatorRow (fun q => q) c2Prices 11).ema12.isSome = true := by
    rw [indicatorRow_ema12, calculateEMA_getD _ 12 11 hclen, if_neg (by omega)]
    rfl
  have hsave := shouldSaveB_indicatorRow (fun q => q) c2Prices 11 h11
  simp [hema, hsave]

/--
C2 (amended): `calculateAndSaveIndicators` upserts a snapshot for a date if
and only if that date's `rsi14` or `sma20` is defined — equivalently, iff
its index is at least 14 (the `rsi14` lookback) — so exactly
`max(0, L − 14)` snapshots are saved, and a date whose only defined fields
are earlier-available indicators (such as `ema12`) is not saved.
-/
theorem c2_saved_iff_rsi14_or_sma20 (sq : ℚ → ℚ) (pd : List PriceData)
    (i : ℕ) (hi : i < pd.length) :
    ((calculateAllIndicators sq pd).map shouldSaveB)[i]? = some (decide (14 ≤ i)) ∧
    (indicatorRow sq pd i).rsi14.isSome = decide (14 ≤ i) ∧
    (savedIndicators sq pd).length = pd.length - 14 := by
  refine ⟨?_, ?_, ?_⟩
  · rw [List.getElem?_map, calculateAllIndicators_getElem? sq pd i hi]
    simp [shouldSaveB_indicatorRow sq pd i hi]
  · have hclen : i < (pd.map (·.close)).length := by simpa using hi
    rw [indicatorRow_rsi14, calculateRSI_getD _ 14 i hclen]
    by_cases h14 : 14 ≤ i <;> simp [h14] <;> omega
  · rw [savedIndicators, calculateAllIndicators, List.filter_map,
      List.length_map, ← List.countP_eq_length_filter]
    have h : ∀ j ∈ List.range pd.length,
        ((shouldSaveB ∘ indicatorRow sq pd) j = true) ↔
          ((fun j => decide (14 ≤ j)) j = true) := by
      intro j hj
      rw [Function.comp_apply,
        shouldSaveB_indicatorRow sq pd j (List.mem_range.mp hj)]
    rw [List.countP_congr h, countP_range_le]

/--
Witness for `c2_saved_iff_rsi14_or_sma20` at index 11 of the twelve-day
history: not saved (the guard is false there).
-/
theorem c2_saved_iff_rsi14_or_sma20_witness :
    (11 : ℕ) < c2Prices.length ∧
    ((calculateAllIndicators (fun q => q) c2Prices).map shouldSaveB)[11]? =
      some false :=
  ⟨by simp [c2Prices],
    by
      have h := (c2_saved_iff_rsi14_or_sma20 (fun q => q) c2Prices 11
        (by simp [c2Prices])).1
      simpa using h⟩

theorem padNone_length {l : List (Option ℚ)} {n : ℕ} (h : l.length ≤ n) :
    (padNone n l).length = n := by
  simp only [padNone, List.length_append, List.length_replicate]
  omega

theorem calculateMACD_macd_length (prices : List ℚ) (f s g : ℕ) :
    (calculateMACD prices f s g).1.length = prices.length := by
  simp [calculateMACD, List.length_zipWith, calculateEMA_length]

theorem calculateMACD_signal_length (prices : List ℚ) (f s g : ℕ) :
    (calculateMACD prices f s g).2.1.length = prices.length := by
  have hml : (List.zipWith optSub (calculateEMA prices f)
      (calculateEMA prices s)).length = prices.length := by
    rw [List.length_zipWith, calculateEMA_length, calculateEMA_length, min_self]
  have hs : (calculateEMA ((List.zipWith optSub (calculateEMA prices f)
      (calculateEMA prices s)).filterMap id) g).length ≤
      (List.zipWith optSub (calculateEMA prices f)
        (calculateEMA prices s)).length := by
    rw [calculateEMA_length]
    exact List.length_filterMap_le id _
  simp only [calculateMACD]
  rw [padNone_length hs, hml]

theorem calculateMACD_histogram_length (prices : List ℚ) (f s g : ℕ) :
    (calculateMACD prices f s g).2.2.length = prices.length := by
  have h1 := calculateMACD_macd_length prices f s g
  have h2 := calculateMACD_signal_length prices f s g
  simp only [calculateMACD] at h1 h2 ⊢
  rw [List.length_zipWith, h2, h1, min_self]

theorem calculateStochastic_k_length (highs lows closes : List ℚ)
    (period smoothK : ℕ) :
    (calculateStochastic highs lows closes period smoothK).1.length =
      closes.length := by
  have hk : ((List.range closes.length).map fun i =>
      if i < period - 1 then none
      else
        let highsSlice := (highs.drop (i + 1 - period)).take period
        let lowsSlice := (lows.drop (i + 1 - period)).take period
        let highestHigh := listMax highsSlice
        let lowestLow := listMin lowsSlice
        some (if lowestLow = highestHigh then (50 : ℚ)
          else (closes.getD i 0 - lowestLow) / (highestHigh - lowestLow) * 100)).length
      = closes.length := by
    rw [List.length_map, List.length_range]
  have hs : (calculateSMA ((((List.range closes.length).map fun i =>
      if i < period - 1 then none
      else
        let highsSlice := (highs.drop (i + 1 - period)).take period
        let lowsSlice := (lows.drop (i + 1 - period)).take period
        let highestHigh := listMax highsSlice
        let lowestLow := listMin lowsSlice
        some (if lowestLow = highestHigh then (50 : ℚ)
          else (closes.getD i 0 - lowestLow) / (highestHigh - lowestLow) * 100))).filterMap id)
      smoothK).length ≤ ((List.range closes.length).map fun i =>
      if i < period - 1 then none
      else
        let highsSlice := (highs.drop (i + 1 - period)).take period
        let lowsSlice := (lows.drop (i + 1 - period)).take period
        let highestHigh := listMax highsSlice
        let lowestLow := listMin lowsSlice
        some (if lowestLow = highestHigh then (50 : ℚ)
          else (closes.getD i 0 - lowestLow) / (highestHigh - lowestLow) * 100)).length := by
    rw [calculateSMA_length]
    exact List.length_filterMap_le id _
  simp only [calculateStochastic]
  rw [padNone_length hs, hk]

theorem calculateStochastic_d_length (highs lows closes : List ℚ)
    (period smoothK : ℕ) :
    (calculateStochastic highs lows closes period smoothK).2.length =
      closes.length := by
  have h1 := calculateStochastic_k_length highs lows closes period smoothK
  have hd : ∀ (pk : List (Option ℚ)),
      (calculateSMA (pk.filterMap id) 3).length ≤ pk.length := by
    intro pk
    rw [calculateSMA_length]
    exact List.length_filterMap_le id _
  simp only [calculateStochastic] at h1 ⊢
  rw [padNone_length (hd _), h1]

theorem trueRanges_length (highs lows closes : List ℚ) :
    (trueRanges highs lows closes).length = closes.length := by
  simp [trueRanges]

theorem calculateATR_length (highs lows closes : List ℚ) (period : ℕ) :
    (calculateATR highs lows closes period).length = closes.length := by
  rw [calculateATR, calculateEMA_length, trueRanges_length]

theorem calculateADX_length (highs lows closes : List ℚ) (period : ℕ) :
    (calculateADX highs lows closes period).length = closes.length := by
  simp [calculateADX]

theorem getD_none_eq_join (o : Option (Option ℚ)) : o.getD none = o.join := by
  cases o <;> rfl

/--
C8: `calculateAllIndicators` returns one result row per input row (same
length, matching date at each index), and every indicator field of every
row is exactly the corresponding entry of the corresponding indicator
function's output — `none`/undefined where that function is not yet
computable, never a placeholder zero — with the padded MACD-signal,
stochastic and ATR arrays realigned to the full input length.
-/
theorem c8_all_indicators_shape (sq : ℚ → ℚ) (pd : List PriceData) (i : ℕ)
    (hi : i < pd.length) :
    (calculateAllIndicators sq pd).length = pd.length ∧
    (calculateAllIndicators sq pd)[i]? = some (indicatorRow sq pd i) ∧
    (indicatorRow sq pd i).date = (pd.getD i default).date ∧
    (indicatorRow sq pd i).rsi14 =
      ((calculateRSI (pd.map (·.close)) 14)[i]?).join ∧
    (indicatorRow sq pd i).macd =
      ((calculateMACD (pd.map (·.close)) 12 26 9).1[i]?).join ∧
    (indicatorRow sq pd i).macdSignal =
      ((calculateMACD (pd.map (·.close)) 12 26 9).2.1[i]?).join ∧
    (indicatorRow sq pd i).macdHistogram =
      ((calculateMACD (pd.map (·.close)) 12 26 9).2.2[i]?).join ∧
    (indicatorRow sq pd i).sma20 =
      ((calculateSMA (pd.map (·.close)) 20)[i]?).join ∧
    (indicatorRow sq pd i).sma50 =
      ((calculateSMA (pd.map (·.close)) 50)[i]?).join ∧
    (indicatorRow sq pd i).sma200 =
      ((calculateSMA (pd.map (·.close)) 200)[i]?).join ∧
    (indicatorRow sq pd i).ema12 =
      ((calculateEMA (pd.map (·.close)) 12)[i]?).join ∧
    (indicatorRow sq pd i).ema26 =
      ((calculateEMA (pd.map (·.close)) 26)[i]?).join ∧
    (indicatorRow sq pd i).bollingerUpper =
      ((calculateBollingerBands sq (pd.map (·.close)) 20 2).1[i]?).join ∧
    (indicatorRow sq pd i).bollingerMiddle =
      ((calculateBollingerBands sq (pd.map (·.close)) 20 2).2.1[i]?).join ∧
    (indicatorRow sq pd i).bollingerLower =
      ((calculateBollingerBands sq (pd.map (·.close)) 20 2).2.2[i]?).join ∧
    (indicatorRow sq pd i).stochasticK =
      ((calculateStochastic (pd.map (·.high)) (pd.map (·.low))
        (pd.map (·.close)) 14 3).1[i]?).join ∧
    (indicatorRow sq pd i).stochasticD =
      ((calculateStochastic (pd.map (·.high)) (pd.map (·.low))
        (pd.map (·.close)) 14 3).2[i]?).join ∧
    (indicatorRow sq pd i).atr14 =
      ((calculateATR (pd.map (·.high)) (pd.map (·.low))
        (pd.map (·.close)) 14)[i]?).join ∧
    (indicatorRow sq pd i).adx14 =
      ((calculateADX (pd.map (·.high)) (pd.map (·.low))
        (pd.map (·.close)) 14)[i]?).join ∧
    (calculateMACD (pd.map (·.close)) 12 26 9).2.1.length = pd.length ∧
    (calculateStochastic (pd.map (·.high)) (pd.map (·.low))
      (pd.map (·.close)) 14 3).1.length = pd.length ∧
    (calculateStochastic (pd.map (·.high)) (pd.map (·.low))
      (pd.map (·.close)) 14 3).2.length = pd.length ∧
    (calculateATR (pd.map (·.high)) (pd.map (·.low))
      (pd.map (·.close)) 14).length = pd.length := by
  refine ⟨calculateAllIndicators_length sq pd,
    calculateAllIndicators_getElem? sq pd i hi, rfl,
    ?_, ?_, ?_, ?_, ?_, ?_, ?_, ?_, ?_, ?_, ?_, ?_, ?_, ?_, ?_, ?_,
    ?_, ?_, ?_, ?_⟩
  all_goals
    first
      | simp only [indicatorRow_rsi14, indicatorRow_macd, indicatorRow_macdSignal,
          indicatorRow_macdHistogram, indicatorRow_sma20, indicatorRow_sma50,
          indicatorRow_sma200, indicatorRow_ema12, indicatorRow_ema26,
          indicatorRow_bollingerUpper, indicatorRow_bollingerMiddle,
          indicatorRow_bollingerLower, indicatorRow_stochasticK,
          indicatorRow_stochasticD, indicatorRow_atr14, indicatorRow_adx14,
          List.getD_eq_getElem?_getD, getD_none_eq_join]
      | rw [calculateMACD_signal_length, List.length_map]
      | rw [calculateStochastic_k_length, List.length_map]
      | rw [calculateStochastic_d_length, List.length_map]
      | rw [calculateATR_length, List.length_map]

/--
Witness for `c8_all_indicators_shape` on the twelve-day history at index 0.
-/
theorem c8_all_indicators_shape_witness :
    (0 : ℕ) < c2Prices.length ∧
    (calculateAllIndicators (fun q => q) c2Prices).length = c2Prices.length :=
  ⟨by simp [c2Prices],
    (c8_all_indicators_shape (fun q => q) c2Prices 0 (by simp [c2Prices])).1⟩

/-! ## Validator lemmas (claims C4, C5, C9) -/

theorem resolveOne_not_selected (ps : List StockPrice) (today : ℤ)
    (p : Prediction) (h : ¬(p.targetDate < today ∧ p.isCorrect = none)) :
    resolveOne ps today p = p := by
  rw [resolveOne, if_neg h]

theorem resolveOne_changes_only_selected (ps : List StockPrice) (today : ℤ)
    (p : Prediction) (h : resolveOne ps today p ≠ p) :
    p.targetDate < today ∧ p.isCorrect = none := by
  by_contra hc
  exact h (resolveOne_not_selected ps today p hc)

theorem resolveOne_idem (ps : List StockPrice) (today : ℤ) (p : Prediction) :
    resolveOne ps today (resolveOne ps today p) = resolveOne ps today p := by
  by_cases hg : p.targetDate < today ∧ p.isCorrect = none
  · cases hA : findActual ps p.companyId p.targetDate with
    | none =>
        have h1 : resolveOne ps today p = p := by
          simp [resolveOne, hg, hA]
        rw [h1]
        exact h1
    | some a =>
        cases hB : findPrev ps p.companyId p.predictionDate with
        | none =>
            have h1 : resolveOne ps today p = p := by
              simp [resolveOne, hg, hA, hB]
            rw [h1]
            exact h1
        | some b =>
            have hq : (resolveOne ps today p).isCorrect ≠ none := by
              simp [resolveOne, hg, hA, hB]
            exact resolveOne_not_selected ps today _ (fun hc => hq hc.2)
  · rw [resolveOne_not_selected ps today p hg, resolveOne_not_selected ps today p hg]

theorem validatePredictions_idem (ps : List StockPrice) (today : ℤ)
    (db : List Prediction) :
    validatePredictions ps today (validatePredictions ps today db) =
      validatePredictions ps today db := by
  rw [validatePredictions, validatePredictions, List.map_map]
  apply List.map_congr_left
  intro p hp
  exact resolveOne_idem ps today p

theorem mem_selectPending (today : ℤ) (db : List Prediction) (p : Prediction)
    (h : p ∈ selectPending today db) :
    p.targetDate < today ∧ p.isCorrect = none := by
  rw [selectPending] at h
  have := (List.mem_filter.mp h).2
  simp only [Bool.and_eq_true, decide_eq_true_eq, Option.isNone_iff_eq_none] at this
  exact this

/--
C4: the validator touches a prediction only when its target date is
strictly before (midnight-floored) today and its enrichment state is still
null; the selection query never returns an already-resolved prediction; and
a second full run over an already-validated table (same price data, same
today) is the identity — so each prediction is resolved at most once.
-/
theorem c4_resolved_at_most_once (ps : List StockPrice) (today : ℤ)
    (db : List Prediction) (p : Prediction) :
    (resolveOne ps today p ≠ p → p.targetDate < today ∧ p.isCorrect = none) ∧
    (p.isCorrect ≠ none → p ∉ selectPending today db) ∧
    validatePredictions ps today (validatePredictions ps today db) =
      validatePredictions ps today db :=
  ⟨resolveOne_changes_only_selected ps today p,
    fun h hmem => h (mem_selectPending today db p hmem).2,
    validatePredictions_idem ps today db⟩

/-- Evaluation of the validator on the spec's worked example. -/
theorem resolveOne_c5 :
    resolveOne c5Prices 6 c5Pred =
      { c5Pred with
        actualDirection := some Dir3.up
        actualPrice := some 110
        actualChangePercent := some 10
        isCorrect := some true
        confidenceWeightedScore := some (4/5)
        priceErrorPercent := none
        tradingReturn := some (39/5) } := by
  have hsel : c5Pred.targetDate < 6 ∧ c5Pred.isCorrect = none := by
    norm_num [c5Pred]
  have hA : findActual c5Prices c5Pred.companyId c5Pred.targetDate =
      some { companyId := 1, date := 5, close := 110 } := by
    simp [findActual, c5Prices, c5Pred, List.find?]
  have hB : findPrev c5Prices c5Pred.companyId c5Pred.predictionDate =
      some { companyId := 1, date := 0, close := 100 } := by
    simp [findPrev, c5Prices, c5Pred, List.filter, List.foldl]
  simp only [resolveOne, hsel, and_self, if_true, hA, hB]
  norm_num [directionOf, isCorrectOf, priceErrorOf, tradingReturnOf,
    persistRound2, round2, round4, c5Pred]

/-- Evaluation of the validator on the zero-trading-return example. -/
theorem resolveOne_c9 :
    resolveOne c9Prices 6 c9Pred =
      { c9Pred with
        actualDirection := some Dir3.up
        actualPrice := some (401/4)
        actualChangePercent := some (1/4)
        isCorrect := some true
        confidenceWeightedScore := some (4/5)
        priceErrorPercent := none
        tradingReturn := none } := by
  have hsel : c9Pred.targetDate < 6 ∧ c9Pred.isCorrect = none := by
    norm_num [c9Pred]
  have hA : findActual c9Prices c9Pred.companyId c9Pred.targetDate =
      some { companyId := 1, date := 5, close := 401/4 } := by
    simp [findActual, c9Prices, c9Pred, List.find?,
      (by decide : ((0 : ℤ) == (5 : ℤ)) = false)]
  have hB : findPrev c9Prices c9Pred.companyId c9Pred.predictionDate =
      some { companyId := 1, date := 0, close := 100 } := by
    simp [findPrev, c9Prices, c9Pred, List.filter, List.foldl]
  simp only [resolveOne, hsel, and_self, if_true, hA, hB]
  norm_num [directionOf, isCorrectOf, priceErrorOf, tradingReturnOf,
    persistRound2, round2, round4, c9Pred]

/--
Witness for `c4_resolved_at_most_once`: the example prediction is actually
changed by the first run (so the hypothesis of the first conjunct is
satisfiable), its selection condition holds, and a second run over the
one-row table is the identity.
-/
theorem c4_resolved_at_most_once_witness :
    resolveOne c5Prices 6 c5Pred ≠ c5Pred ∧
    (c5Pred.targetDate < 6 ∧ c5Pred.isCorrect = none) ∧
    validatePredictions c5Prices 6 (validatePredictions c5Prices 6 [c5Pred]) =
      validatePredictions c5Prices 6 [c5Pred] := by
  have h := c4_resolved_at_most_once c5Prices 6 [c5Pred] c5Pred
  have hne : resolveOne c5Prices 6 c5Pred ≠ c5Pred := by
    intro hEq
    have hfield := congrArg Prediction.isCorrect hEq
    rw [resolveOne_c5] at hfield
    simp [c5Pred] at hfield
  exact ⟨hne, h.1 hne, h.2.2⟩

/--
C5: the validator's simulated trading return is computed exactly when
`confidence > 0.50`; for an `up` prediction it is
`(actual − baseline)/baseline × 100 × confidence − 0.2`, for a `down`
prediction `(baseline − actual)/baseline × 100 × confidence − 0.2`; and on
the spec's example (up, confidence 0.8, baseline 100, actual 110) the
resolved prediction carries `isCorrect = true` and `tradingReturn = 7.8`.
-/
theorem c5_trading_return_formula (confidence baselineClose actualClose : ℚ) :
    ((tradingReturnOf confidence Dir.up baselineClose actualClose).isSome ↔
      1/2 < confidence) ∧
    ((tradingReturnOf confidence Dir.down baselineClose actualClose).isSome ↔
      1/2 < confidence) ∧
    (1/2 < confidence →
      tradingReturnOf confidence Dir.up baselineClose actualClose =
        some ((actualClose - baselineClose) / baselineClose * 100 * confidence
          - 1/5)) ∧
    (1/2 < confidence →
      tradingReturnOf confidence Dir.down baselineClose actualClose =
        some ((baselineClose - actualClose) / baselineClose * 100 * confidence
          - 1/5)) ∧
    (resolveOne c5Prices 6 c5Pred).isCorrect = some true ∧
    (resolveOne c5Prices 6 c5Pred).tradingReturn = some (7.8 : ℚ) := by
  refine ⟨?_, ?_, ?_, ?_, ?_, ?_⟩
  · by_cases h : 1/2 < confidence <;> simp [tradingReturnOf, h]
  · by_cases h : 1/2 < confidence <;> simp [tradingReturnOf, h]
  · intro h
    rw [tradingReturnOf, if_pos h]
  · intro h
    rw [tradingReturnOf, if_pos h]
  · rw [resolveOne_c5]
  · rw [resolveOne_c5]
    norm_num

/--
Witness for `c5_trading_return_formula` at the example numbers.
-/
theorem c5_trading_return_formula_witness :
    ((1 : ℚ)/2 < 4/5) ∧
    tradingReturnOf (4/5) Dir.up 100 110 =
      some ((110 - 100) / 100 * 100 * (4/5) - 1/5) :=
  ⟨by norm_num,
    (c5_trading_return_formula (4/5) 100 110).2.2.1 (by norm_num)⟩

/--
C9 (amended): when the validator resolves a prediction, a computed optional
metric that equals exactly zero is persisted as null — a trading return of
exactly 0 and a price error of exactly 0 are both stored as `none` by the
`x ? round(x) : null` idiom applied to the locally computed number — and
consequently a resolved prediction can carry a null `tradingReturn` even
though its confidence exceeds 0.50 (the concrete `c9Pred` example). A
`predictedPrice` of exactly `0`, however, is not treated as absent: the
field's `Decimal` object is truthy at 0 (`c9_counterexample`).
-/
theorem c9_zero_metrics_stored_null (ps : List StockPrice) (today : ℤ)
    (p : Prediction) (a b : StockPrice)
    (hsel : p.targetDate < today ∧ p.isCorrect = none)
    (hA : findActual ps p.companyId p.targetDate = some a)
    (hB : findPrev ps p.companyId p.predictionDate = some b) :
    (tradingReturnOf p.confidence p.predictedDirection b.close a.close =
        some 0 → (resolveOne ps today p).tradingReturn = none) ∧
    (priceErrorOf p.predictedPrice a.close = some 0 →
      (resolveOne ps today p).priceErrorPercent = none) ∧
    (1/2 < c9Pred.confidence ∧
      (resolveOne c9Prices 6 c9Pred).isCorrect = some true ∧
      (resolveOne c9Prices 6 c9Pred).tradingReturn = none) := by
  refine ⟨?_, ?_, ?_⟩
  · intro h0
    simp [resolveOne, hsel, hA, hB, h0, persistRound2]
  · intro h0
    simp [resolveOne, hsel, hA, hB, h0, persistRound2]
  · refine ⟨by norm_num [c9Pred], ?_, ?_⟩
    · rw [resolveOne_c9]
    · rw [resolveOne_c9]

/--
C9 counterexample to the claim as stated: a prediction whose
`predictedPrice` is exactly `0` is treated as present, not absent — against
an actual close of 110 the resolved row stores a 100% price error instead
of null.
-/
theorem c9_counterexample :
    c9ZeroPred.predictedPrice = some 0 ∧
    (resolveOne c5Prices 6 c9ZeroPred).priceErrorPercent = some 100 ∧
    some (100 : ℚ) ≠ (none : Option ℚ) := by
  refine ⟨rfl, ?_, by simp⟩
  have hsel : c9ZeroPred.targetDate < 6 ∧ c9ZeroPred.isCorrect = none := by
    norm_num [c9ZeroPred]
  have hA : findActual c5Prices c9ZeroPred.companyId c9ZeroPred.targetDate =
      some { companyId := 1, date := 5, close := 110 } := by
    simp [findActual, c5Prices, c9ZeroPred, List.find?]
  have hB : findPrev c5Prices c9ZeroPred.companyId c9ZeroPred.predictionDate =
      some { companyId := 1, date := 0, close := 100 } := by
    simp [findPrev, c5Prices, c9ZeroPred, List.filter, List.foldl]
  simp only [resolveOne, hsel, and_self, if_true, hA, hB]
  norm_num [priceErrorOf, persistRound2, round2, c9ZeroPred]

/--
Witness for `c9_zero_metrics_stored_null` on the concrete example rows.
-/
theorem c9_zero_metrics_stored_null_witness :
    (c9Pred.targetDate < 6 ∧ c9Pred.isCorrect = none) ∧
    findActual c9Prices c9Pred.companyId c9Pred.targetDate =
      some { companyId := 1, date := 5, close := 401/4 } ∧
    findPrev c9Prices c9Pred.companyId c9Pred.predictionDate =
      some { companyId := 1, date := 0, close := 100 } ∧
    tradingReturnOf c9Pred.confidence c9Pred.predictedDirection 100 (401/4) =
      some 0 ∧
    (resolveOne c9Prices 6 c9Pred).tradingReturn = none := by
  have hsel : c9Pred.targetDate < 6 ∧ c9Pred.isCorrect = none := by
    norm_num [c9Pred]
  have hA : findActual c9Prices c9Pred.companyId c9Pred.targetDate =
      some { companyId := 1, date := 5, close := 401/4 } := by
    simp [findActual, c9Prices, c9Pred, List.find?]
  have hB : findPrev c9Prices c9Pred.companyId c9Pred.predictionDate =
      some { companyId := 1, date := 0, close := 100 } := by
    simp [findPrev, c9Prices, c9Pred, List.filter, List.foldl]
  have h0 : tradingReturnOf c9Pred.confidence c9Pred.predictedDirection
      100 (401/4) = some 0 := by
    norm_num [tradingReturnOf, c9Pred]
  exact ⟨hsel, hA, hB, h0,
    (c9_zero_metrics_stored_null c9Prices 6 c9Pred _ _ hsel hA hB).1 h0⟩

/-! ## Simulator lemmas (claims C1, C6) -/

/-- Each loop iteration either skips (state unchanged) or appends exactly
one trade and credits exactly that trade's net return to capital, leaving
`openPositions` untouched (the source never inserts into the map). -/
theorem simStep_cases (strategy : TradingStrategy) (st : SimState)
    (p : SimPrediction) :
    simStep strategy st p = st ∨
    ∃ t : Trade, (simStep strategy st p).trades = st.trades ++ [t] ∧
      (simStep strategy st p).capital = st.capital + t.ret ∧
      (simStep strategy st p).openPositions = st.openPositions := by
  by_cases h1 : st.openPositions.contains p.companyId
  · left
    rw [simStep, if_pos h1]
  · have h1' : ¬(p.companyId ∈ st.openPositions) := by simpa using h1
    by_cases h2 : st.capital < strategy.positionSize
    · left
      rw [simStep, if_neg h1, if_pos h2]
    · right
      by_cases h3 : p.actualDirection = Dir3.up ∧ p.predictedDirection = Dir.up
      · refine ⟨⟨p.targetDate, p.ticker, TradeType.BUY, p.confidence,
          p.actualPrice / (1 + p.actualChangePercent / 100), p.actualPrice,
          strategy.positionSize / (p.actualPrice / (1 + p.actualChangePercent / 100)) *
            (p.actualPrice - p.actualPrice / (1 + p.actualChangePercent / 100)) -
            strategy.positionSize * (1/500),
          strategy.positionSize / (p.actualPrice / (1 + p.actualChangePercent / 100)) *
            (p.actualPrice - p.actualPrice / (1 + p.actualChangePercent / 100)) /
            strategy.positionSize * 100 - 1/5⟩, ?_, ?_, ?_⟩ <;>
          simp [simStep, h1', h2, h3]
      · by_cases h4 : p.actualDirection = Dir3.down ∧ p.predictedDirection = Dir.down
        · refine ⟨⟨p.targetDate, p.ticker, TradeType.SHORT, p.confidence,
            p.actualPrice / (1 + p.actualChangePercent / 100), p.actualPrice,
            strategy.positionSize / (p.actualPrice / (1 + p.actualChangePercent / 100)) *
              (p.actualPrice / (1 + p.actualChangePercent / 100) - p.actualPrice) -
              strategy.positionSize * (1/500),
            strategy.positionSize / (p.actualPrice / (1 + p.actualChangePercent / 100)) *
              (p.actualPrice / (1 + p.actualChangePercent / 100) - p.actualPrice) /
              strategy.positionSize * 100 - 1/5⟩, ?_, ?_, ?_⟩ <;>
            simp [simStep, h1', h2, h3, h4]
        · by_cases h5 : p.predictedDirection = Dir.up
          · refine ⟨⟨p.targetDate, p.ticker, TradeType.BUY, p.confidence,
              p.actualPrice / (1 + p.actualChangePercent / 100), p.actualPrice,
              strategy.positionSize / (p.actualPrice / (1 + p.actualChangePercent / 100)) *
                (p.actualPrice - p.actualPrice / (1 + p.actualChangePercent / 100)) -
                strategy.positionSize * (1/500),
              strategy.positionSize / (p.actualPrice / (1 + p.actualChangePercent / 100)) *
                (p.actualPrice - p.actualPrice / (1 + p.actualChangePercent / 100)) /
                strategy.positionSize * 100 - 1/5⟩, ?_, ?_, ?_⟩ <;>
              simp [simStep, h1', h2, h3, h4, h5]
          · refine ⟨⟨p.targetDate, p.ticker, TradeType.SHORT, p.confidence,
              p.actualPrice / (1 + p.actualChangePercent / 100), p.actualPrice,
              strategy.positionSize / (p.actualPrice / (1 + p.actualChangePercent / 100)) *
                (p.actualPrice / (1 + p.actualChangePercent / 100) - p.actualPrice) -
                strategy.positionSize * (1/500),
              strategy.positionSize / (p.actualPrice / (1 + p.actualChangePercent / 100)) *
                (p.actualPrice / (1 + p.actualChangePercent / 100) - p.actualPrice) /
                strategy.positionSize * 100 - 1/5⟩, ?_, ?_, ?_⟩ <;>
              simp [simStep, h1', h2, h3, h4, h5]

theorem simStep_capital_sub (strategy : TradingStrategy) (st : SimState)
    (p : SimPrediction) :
    (simStep strategy st p).capital -
        (((simStep strategy st p).trades.map Trade.ret).sum) =
      st.capital - ((st.trades.map Trade.ret).sum) := by
  rcases simStep_cases strategy st p with h | ⟨t, h1, h2, h3⟩
  · rw [h]
  · rw [h1, h2, List.map_append, List.sum_append]
    simp

theorem simulate_foldl_invariant (strategy : TradingStrategy)
    (l : List SimPrediction) :
    ∀ st : SimState,
      (l.foldl (simStep strategy) st).capital -
          (((l.foldl (simStep strategy) st).trades.map Trade.ret).sum) =
        st.capital - ((st.trades.map Trade.ret).sum) := by
  induction l with
  | nil => intro st; rfl
  | cons p l ih =>
      intro st
      rw [List.foldl_cons, ih (simStep strategy st p), simStep_capital_sub]

/--
C6: the simulator starts its ledger at the fixed 100,000 starting capital,
each executed trade immediately credits exactly its own net return to
capital (and a skipped prediction changes nothing), and for every input
prediction stream the final capital equals
`startingCapital + Σ trade.ret` over the produced trade list (before any
display rounding).
-/
theorem c6_capital_equals_start_plus_returns (strategy : TradingStrategy)
    (predictions : List SimPrediction) (st : SimState) (p : SimPrediction) :
    (simulateHistoricalTrading strategy predictions).capital =
      startingCapital +
        (((simulateHistoricalTrading strategy predictions).trades.map
          Trade.ret).sum) ∧
    (simStep strategy st p = st ∨
      ∃ t : Trade, (simStep strategy st p).trades = st.trades ++ [t] ∧
        (simStep strategy st p).capital = st.capital + t.ret ∧
        (simStep strategy st p).openPositions = st.openPositions) := by
  constructor
  · have h := simulate_foldl_invariant strategy
      (predictions.filter fun q => decide (strategy.minConfidence ≤ q.confidence))
      { capital := startingCapital, trades := [], openPositions := [] }
    rw [simulateHistoricalTrading]
    simp only [List.map_nil, List.sum_nil] at h
    linarith
  · exact simStep_cases strategy st p

/--
C1 (code evaluation at the failing input): two resolved predictions for the
same instrument, both above the default 0.55 confidence threshold, both
execute — the replay produces two trades for the one instrument even though
`maxPositionsPerStock = 1`, because the loop's `openPositions` map is
checked but never populated, so the skip never fires.
-/
theorem c1_same_instrument_trades_twice :
    (simulateHistoricalTrading DEFAULT_STRATEGY [c1P1, c1P2]).trades.length = 2 ∧
    ((simulateHistoricalTrading DEFAULT_STRATEGY [c1P1, c1P2]).trades.map
      (fun t => t.ticker)) = ["ACME", "ACME"] ∧
    DEFAULT_STRATEGY.minConfidence ≤ c1P1.confidence ∧
    DEFAULT_STRATEGY.minConfidence ≤ c1P2.confidence ∧
    c1P1.companyId = c1P2.companyId ∧
    DEFAULT_STRATEGY.maxPositionsPerStock = 1 := by
  have hf : [c1P1, c1P2].filter
      (fun q => decide (DEFAULT_STRATEGY.minConfidence ≤ q.confidence)) =
      [c1P1, c1P2] := by
    simp only [List.filter_cons, List.filter_nil, decide_eq_true_eq]
    norm_num [c1P1, c1P2, DEFAULT_STRATEGY]
  refine ⟨?_, ?_, by norm_num [c1P1, DEFAULT_STRATEGY],
    by norm_num [c1P2, DEFAULT_STRATEGY], by norm_num [c1P1, c1P2],
    by norm_num [DEFAULT_STRATEGY]⟩ <;>
  · rw [simulateHistoricalTrading, hf]
    norm_num [simStep, startingCapital, DEFAULT_STRATEGY, c1P1, c1P2,
      List.foldl, directionOf]

/-! ## Recommendation lemmas (claim C10) -/

theorem recommendationOf_of_ge (c : ℚ) (d : Dir) (h : 3/5 ≤ c) :
    recommendationOf c d =
      (if d = Dir.up then RecType.BUY else RecType.SHORT) := by
  rw [recommendationOf]
  by_cases h7 : c ≥ 7/10
  · rw [if_pos h7]
  · rw [if_neg h7, if_pos h]

/--
C10: every recommendation produced for a prediction at or above the 0.60
confidence tier is BUY for a predicted `up` and SHORT for a predicted
`down`; and since the query filters at `minConfidence`, whenever
`minConfidence ≥ 0.60` the returned list contains no HOLD recommendation.
-/
theorem c10_no_hold_at_or_above_060 (now : ℤ) (minConfidence : ℚ)
    (db : List RecPrediction) (r : Recommendation) (c : ℚ) (d : Dir)
    (hc : 3/5 ≤ c) (hmin : 3/5 ≤ minConfidence)
    (hr : r ∈ getTradingRecommendations now minConfidence db) :
    recommendationOf c d =
      (if d = Dir.up then RecType.BUY else RecType.SHORT) ∧
    r.recommendation =
      (if r.predictedDirection = Dir.up then RecType.BUY else RecType.SHORT) ∧
    r.recommendation ≠ RecType.HOLD := by
  obtain ⟨p, hp, hrp⟩ := List.mem_map.mp hr
  have hpc : minConfidence ≤ p.confidence := by
    have := (List.mem_filter.mp hp).2
    simp only [Bool.and_eq_true, decide_eq_true_eq] at this
    exact this.1.2
  have hpc' : 3/5 ≤ p.confidence := le_trans hmin hpc
  have hrec : r.recommendation = recommendationOf p.confidence p.predictedDirection := by
    rw [← hrp]
  have hdir : r.predictedDirection = p.predictedDirection := by
    rw [← hrp]
  refine ⟨recommendationOf_of_ge c d hc, ?_, ?_⟩
  · rw [hrec, hdir, recommendationOf_of_ge p.confidence p.predictedDirection hpc']
  · rw [hrec, recommendationOf_of_ge p.confidence p.predictedDirection hpc']
    by_cases hd : p.predictedDirection = Dir.up <;> simp [hd]

/--
Witness for `c10_no_hold_at_or_above_060`: with `minConfidence = 0.60` and
one qualifying unresolved prediction at exactly 0.60 confidence, the single
returned recommendation is BUY, not HOLD.
-/
theorem c10_no_hold_at_or_above_060_witness :
    ((3 : ℚ)/5 ≤ 3/5) ∧
    c10Rec ∈ getTradingRecommendations 0 (3/5) [c10Pred] ∧
    c10Rec.recommendation ≠ RecType.HOLD := by
  have heval : getTradingRecommendations 0 (3/5) [c10Pred] = [c10Rec] := by
    rw [getTradingRecommendations]
    have hfilter : [c10Pred].filter (fun p =>
        decide ((0 : ℤ) ≤ p.targetDate) && decide ((3:ℚ)/5 ≤ p.confidence) &&
          p.isCorrect.isNone) = [c10Pred] := by
      simp only [List.filter_cons, List.filter_nil, Bool.and_eq_true,
        decide_eq_true_eq]
      norm_num [c10Pred]
    rw [hfilter]
    simp only [List.map_cons, List.map_nil]
    norm_num [c10Pred, c10Rec, recommendationOf]
  have hmem : c10Rec ∈ getTradingRecommendations 0 (3/5) [c10Pred] := by
    rw [heval]
    exact List.mem_singleton.mpr rfl
  refine ⟨le_refl _, hmem, ?_⟩
  exact (c10_no_hold_at_or_above_060 0 (3/5) [c10Pred] c10Rec (3/5) Dir.up
    le_rfl le_rfl hmem).2.2

end Invest
